import Mathlib

/-!
Shallow embedding of the meteo_climatologie repository (src/meteo.py,
src/meteo_climatologie.py and the historical scripts under src/_archives/).

Python runtime values that flow through the pipeline are modelled by `JVal`
(JSON-like values with rational numbers standing for the decimal numerals
that occur in the catalog files and API responses).  Python operations that
can raise are modelled as `Except PyErr`-valued functions; the exception
classes that the source distinguishes are the constructors of `PyErr`.
External collaborators (the station-directory provider, the geocoding
provider, the climate-data provider, the file system) are passed in as
explicit oracle arguments, so every embedded function is a function of its
inputs and of the behaviour of its collaborators.
-/

namespace MeteoClim

/-- Exception classes distinguished by the source code. -/
inductive PyErr where
  | keyError
  | typeError
  | valueError
  | attributeError
  | fileNotFoundError
  | jsonDecodeError
  | httpError
  deriving Repr, DecidableEq

/-- JSON-like Python values.  Numbers are modelled as rationals (the decimal
numerals appearing in catalog files and responses are exactly representable). -/
inductive JVal where
  | null
  | bool (b : Bool)
  | num (q : ℚ)
  | str (s : String)
  | arr (l : List JVal)
  | obj (l : List (String × JVal))

/-- Boolean test for `Except` success (Python: no exception raised). -/
def exOk {ε α : Type} : Except ε α → Bool
  | .ok _ => true
  | .error _ => false

/-- First-match association-list lookup for JSON object fields. -/
def lookupStr (l : List (String × JVal)) (key : String) : Option JVal :=
  match l with
  | [] => none
  | (k, v) :: rest => if k = key then some v else lookupStr rest key

/-- Python subscript `v[key]` with a string key: on a dict it is a lookup
raising `KeyError` when the key is missing; on every other value it raises
`TypeError` (list/str subscripts need integers, None/num/bool not subscriptable). -/
def pyGetItem (v : JVal) (key : String) : Except PyErr JVal :=
  match v with
  | .obj l =>
    match lookupStr l key with
    | some w => .ok w
    | none => .error .keyError
  | _ => .error .typeError

/-- Python dict method `v.get(key, default)`: `AttributeError` on non-dicts. -/
def pyDictGet (v : JVal) (key : String) (dflt : JVal) : Except PyErr JVal :=
  match v with
  | .obj l => .ok ((lookupStr l key).getD dflt)
  | _ => .error .attributeError

/-- Python truthiness of a JSON-like value. -/
def pyTruthy : JVal → Bool
  | .null => false
  | .bool b => b
  | .num q => decide (q ≠ 0)
  | .str s => decide (s ≠ "")
  | .arr l => !l.isEmpty
  | .obj l => !l.isEmpty

/-- Numeric value of a digit list, most significant digit first. -/
def digitsValAux (acc : ℕ) : List Char → Option ℕ
  | [] => some acc
  | c :: rest => if c.isDigit then digitsValAux (acc * 10 + (c.toNat - 48)) rest else none

/-- Numeric value of a non-empty all-digit character list. -/
def digitsVal (l : List Char) : Option ℕ :=
  if l.isEmpty then none else digitsValAux 0 l

/-- Value of an unsigned decimal literal (digits with an optional single dot,
at least one digit overall), as accepted by Python `float(...)` on plain
decimal strings.  Exponents, `inf`/`nan`, underscores and surrounding
whitespace are not modelled (no such numerals occur in the pipeline data). -/
def parseUnsignedDec (l : List Char) : Option ℚ :=
  let ip := l.takeWhile Char.isDigit
  let rest := l.dropWhile Char.isDigit
  match rest with
  | [] => (digitsVal ip).map (fun n => (n : ℚ))
  | c :: fp =>
    if c = '.' ∧ fp.all Char.isDigit ∧ ¬(ip.isEmpty ∧ fp.isEmpty) then
      some ((digitsValAux 0 ip).getD 0 + ((digitsValAux 0 fp).getD 0 : ℚ) / (10 : ℚ) ^ fp.length)
    else none

/-- Signed decimal literal, Python `float(str)` on plain decimal strings. -/
def parseDecQ (s : String) : Option ℚ :=
  match s.toList with
  | '-' :: rest => (parseUnsignedDec rest).map (fun q => -q)
  | '+' :: rest => parseUnsignedDec rest
  | l => parseUnsignedDec l

/-- Python `float(v)` on a JSON-like value: numbers pass through, booleans
coerce to 0/1, strings are parsed as decimal literals (`ValueError` on
failure), every other value raises `TypeError`. -/
def pyFloatQ : JVal → Except PyErr ℚ
  | .num q => .ok q
  | .bool b => .ok (if b then 1 else 0)
  | .str s =>
    match parseDecQ s with
    | some q => .ok q
    | none => .error .valueError
  | .null => .error .typeError
  | .arr _ => .error .typeError
  | .obj _ => .error .typeError

/-- The two-step access `float(st[key])` used for station coordinates
(`KeyError`, `TypeError` and `ValueError` can all escape from it). -/
def coordQ (st : JVal) (key : String) : Except PyErr ℚ :=
  match pyGetItem st key with
  | .error e => .error e
  | .ok v => pyFloatQ v

/-- Candidate matches of the `%m` field of `strptime` (regex
`1[0-2]|0[1-9]|[1-9]`, longest alternative first, with backtracking). Each
candidate is the month value paired with the unconsumed input. -/
def monthCands : List Char → List (ℕ × List Char)
  | a :: b :: rest =>
    (if a = '1' ∧ '0' ≤ b ∧ b ≤ '2' then [(10 + (b.toNat - 48), rest)] else []) ++
    (if a = '0' ∧ '1' ≤ b ∧ b ≤ '9' then [(b.toNat - 48, rest)] else []) ++
    (if '1' ≤ a ∧ a ≤ '9' then [(a.toNat - 48, b :: rest)] else [])
  | [a] => if '1' ≤ a ∧ a ≤ '9' then [(a.toNat - 48, [])] else []
  | [] => []

/-- Candidate matches of the `%d` field of `strptime` (regex
`3[01]|[12][0-9]|0[1-9]|[1-9]`, with backtracking). -/
def dayCands : List Char → List (ℕ × List Char)
  | a :: b :: rest =>
    (if a = '3' ∧ '0' ≤ b ∧ b ≤ '1' then [(30 + (b.toNat - 48), rest)] else []) ++
    (if ('1' ≤ a ∧ a ≤ '2') ∧ b.isDigit then [((a.toNat - 48) * 10 + (b.toNat - 48), rest)] else []) ++
    (if a = '0' ∧ '1' ≤ b ∧ b ≤ '9' then [(b.toNat - 48, rest)] else []) ++
    (if '1' ≤ a ∧ a ≤ '9' then [(a.toNat - 48, b :: rest)] else [])
  | [a] => if '1' ≤ a ∧ a ≤ '9' then [(a.toNat - 48, [])] else []
  | [] => []

/-- First candidate on which the continuation succeeds (regex backtracking). -/
def pickFirst {α β : Type} (cands : List α) (k : α → Option β) : Option β :=
  match cands with
  | [] => none
  | c :: rest =>
    match k c with
    | some r => some r
    | none => pickFirst rest k

/-- Gregorian leap year, as used by `datetime`. -/
def isLeap (y : ℕ) : Bool := y % 4 = 0 ∧ (y % 100 ≠ 0 ∨ y % 400 = 0)

/-- Number of days of month `m` of year `y`, as used by `datetime`. -/
def daysInMonth (y m : ℕ) : ℕ :=
  if m = 2 then (if isLeap y then 29 else 28)
  else if m = 4 ∨ m = 6 ∨ m = 9 ∨ m = 11 then 30 else 31

/-- Pattern match of `datetime.strptime(s, "%Y-%m-%d")`: a four-digit year,
a dash, a one-or-two-digit month 1..12, a dash, a one-or-two-digit day 1..31,
with the entire input consumed.  Returns the matched (year, month, day). -/
def strptimeYmd (s : String) : Option (ℕ × ℕ × ℕ) :=
  match s.toList with
  | a :: b :: c :: d :: '-' :: rest =>
    if a.isDigit ∧ b.isDigit ∧ c.isDigit ∧ d.isDigit then
      let y := ((a.toNat - 48) * 10 + (b.toNat - 48)) * 100 + ((c.toNat - 48) * 10 + (d.toNat - 48))
      pickFirst (monthCands rest) (fun mc =>
        match mc.2 with
        | '-' :: rest2 =>
          pickFirst (dayCands rest2) (fun dc =>
            if dc.2 = [] then some (y, mc.1, dc.1) else none)
        | _ => none)
    else none
  | _ => none

/-- Full success of `datetime.strptime(s, "%Y-%m-%d")`: the pattern matches
and the `datetime` constructor accepts the field values (year at least
`MINYEAR = 1`, day within the month). -/
def strptimeYmdValid (s : String) : Option (ℕ × ℕ × ℕ) :=
  match strptimeYmd s with
  | none => none
  | some (y, m, d) => if 1 ≤ y ∧ d ≤ daysInMonth y m then some (y, m, d) else none

/-- Boolean form: does `datetime.strptime(s, "%Y-%m-%d")` succeed? -/
def validYmd (s : String) : Bool := (strptimeYmdValid s).isSome

/-- Two-digit zero padding of `strftime` / `date.isoformat`. -/
def pad2 (n : ℕ) : String := if n < 10 then "0" ++ toString n else toString n

/-- Four-digit zero padding of the `%Y` field of `strftime`. -/
def pad4 (n : ℕ) : String :=
  if n < 10 then "000" ++ toString n
  else if n < 100 then "00" ++ toString n
  else if n < 1000 then "0" ++ toString n
  else toString n

/-- Meteo.to_iso_midnight_z (src/meteo.py lines 125-134): parse the date with
`strptime("%Y-%m-%d")`, raising `ValueError` on failure, and re-format it as
`"%Y-%m-%dT00:00:00Z"`. -/
def to_iso_midnight_z (s : String) : Except PyErr String :=
  match strptimeYmdValid s with
  | none => .error .valueError
  | some (y, m, d) => .ok (pad4 y ++ "-" ++ pad2 m ++ "-" ++ pad2 d ++ "T00:00:00Z")

/-- A Python `datetime.date` value. -/
structure PyDate where
  year : ℕ
  month : ℕ
  day : ℕ
  deriving Repr, DecidableEq

/-- Python comparison `a < b` on `date` objects. -/
def dateLt (a b : PyDate) : Bool :=
  a.year < b.year ∨ (a.year = b.year ∧ (a.month < b.month ∨ (a.month = b.month ∧ a.day < b.day)))

/-- Python `str(d)` on a `date`: ISO format `YYYY-MM-DD`. -/
def dateToStr (d : PyDate) : String := pad4 d.year ++ "-" ++ pad2 d.month ++ "-" ++ pad2 d.day

/-- Python `math.radians`: degrees to radians. -/
noncomputable def radians (x : ℝ) : ℝ := x * (Real.pi / 180)

/-- Python `math.atan2(y, x)`: the two-argument arctangent (signed zeros and
non-finite values are not modelled; they do not occur in this pipeline). -/
noncomputable def atan2 (y x : ℝ) : ℝ :=
  if 0 < x then Real.arctan (y / x)
  else if x < 0 then
    (if 0 ≤ y then Real.arctan (y / x) + Real.pi else Real.arctan (y / x) - Real.pi)
  else
    (if 0 < y then Real.pi / 2 else if y < 0 then -(Real.pi / 2) else 0)

/-- The intermediate value `a` of Meteo._haversine_km (src/meteo.py
lines 281-293): `sin²(Δφ/2) + cos(φ1)·cos(φ2)·sin²(Δλ/2)`. -/
noncomputable def haversineA (lat1 lon1 lat2 lon2 : ℝ) : ℝ :=
  Real.sin (radians (lat2 - lat1) / 2) ^ 2 +
    Real.cos (radians lat1) * Real.cos (radians lat2) * Real.sin (radians (lon2 - lon1) / 2) ^ 2

/-- Meteo._haversine_km (src/meteo.py lines 281-293): great-circle distance in
kilometres, `R·2·atan2(√a, √(1-a))` with Earth mean radius `R = 6371.0088`.
Machine floats are idealised as real numbers. -/
noncomputable def haversine_km (lat1 lon1 lat2 lon2 : ℝ) : ℝ :=
  6371.0088 *
    (2 * atan2 (Real.sqrt (haversineA lat1 lon1 lat2 lon2))
      (Real.sqrt (1 - haversineA lat1 lon1 lat2 lon2)))

theorem atan2_zero_one : atan2 0 1 = 0 := by
  unfold atan2
  rw [if_pos one_pos]
  simp [Real.arctan_zero]

theorem atan2_nonneg (y x : ℝ) (hy : 0 ≤ y) : 0 ≤ atan2 y x := by
  unfold atan2
  by_cases hx : 0 < x
  · rw [if_pos hx]
    rw [← Real.arctan_zero]
    exact (Real.arctan_strictMono.monotone (div_nonneg hy hx.le))
  · rw [if_neg hx]
    by_cases hx2 : x < 0
    · rw [if_pos hx2, if_pos hy]
      have h1 := Real.neg_pi_div_two_lt_arctan (y / x)
      have h2 : 0 < Real.pi / 2 := by positivity
      nlinarith [Real.pi_pos]
    · rw [if_neg hx2]
      by_cases hy2 : 0 < y
      · rw [if_pos hy2]
        positivity
      · rw [if_neg hy2, if_neg (by linarith : ¬y < 0)]

theorem haversineA_self (lat lon : ℝ) : haversineA lat lon lat lon = 0 := by
  unfold haversineA radians
  simp

theorem haversine_km_self (lat lon : ℝ) : haversine_km lat lon lat lon = 0 := by
  unfold haversine_km
  rw [haversineA_self]
  simp [atan2_zero_one]

theorem haversineA_symm (lat1 lon1 lat2 lon2 : ℝ) :
    haversineA lat1 lon1 lat2 lon2 = haversineA lat2 lon2 lat1 lon1 := by
  unfold haversineA
  have h1 : lat1 - lat2 = -(lat2 - lat1) := by ring
  have h2 : lon1 - lon2 = -(lon2 - lon1) := by ring
  have h3 : ∀ z : ℝ, Real.sin (radians (-z) / 2) ^ 2 = Real.sin (radians z / 2) ^ 2 := by
    intro z
    have : radians (-z) / 2 = -(radians z / 2) := by unfold radians; ring
    rw [this, Real.sin_neg, neg_sq]
  rw [h1, h2, h3, h3, mul_comm (Real.cos (radians lat2)) (Real.cos (radians lat1))]

theorem haversine_km_symm (lat1 lon1 lat2 lon2 : ℝ) :
    haversine_km lat1 lon1 lat2 lon2 = haversine_km lat2 lon2 lat1 lon1 := by
  unfold haversine_km
  rw [haversineA_symm]

theorem haversine_km_nonneg (lat1 lon1 lat2 lon2 : ℝ) :
    0 ≤ haversine_km lat1 lon1 lat2 lon2 := by
  unfold haversine_km
  have h1 : (0 : ℝ) ≤ 6371.0088 := by norm_num
  have h2 := atan2_nonneg (Real.sqrt (haversineA lat1 lon1 lat2 lon2))
    (Real.sqrt (1 - haversineA lat1 lon1 lat2 lon2)) (Real.sqrt_nonneg _)
  nlinarith

/-- Coordinate of a station for the distance computation, defaulting to 0
when the coordinate access fails (only applied to records whose coordinate
access succeeds). -/
def coordVal (st : JVal) (key : String) : ℚ :=
  match coordQ st key with
  | .ok q => q
  | .error _ => 0

/-- Great-circle distance from the query point to a station record. -/
noncomputable def stDist (clat clon : ℝ) (st : JVal) : ℝ :=
  haversine_km clat clon ((coordVal st "lat" : ℚ) : ℝ) ((coordVal st "lon" : ℚ) : ℝ)

/-- The loop of Meteo.find_nearest_station (src/meteo.py lines 312-324):
skip records whose `posteOuvert` field is falsy (a record without that field
raises `KeyError`, a non-dict record raises `TypeError`, both uncaught); skip
records whose `lat`/`lon` do not convert to float (`KeyError`/`TypeError`/
`ValueError` are caught by the `try` block); keep the strictly closest record
seen so far. -/
noncomputable def nearestLoop (clat clon : ℝ) :
    List JVal → Option JVal → Option ℝ → Except PyErr (Option JVal × Option ℝ)
  | [], nearest, best => .ok (nearest, best)
  | st :: rest, nearest, best =>
    match pyGetItem st "posteOuvert" with
    | .error e => .error e
    | .ok v =>
      if pyTruthy v = false then nearestLoop clat clon rest nearest best
      else
        match coordQ st "lat", coordQ st "lon" with
        | .ok slat, .ok slon =>
          let d := haversine_km clat clon ((slat : ℚ) : ℝ) ((slon : ℚ) : ℝ)
          match best with
          | none => nearestLoop clat clon rest (some st) (some d)
          | some b =>
            if d < b then nearestLoop clat clon rest (some st) (some d)
            else nearestLoop clat clon rest nearest best
        | _, _ => nearestLoop clat clon rest nearest best

/-- Meteo.find_nearest_station (src/meteo.py lines 296-327).  The catalog file
content is passed as the station list (`load_stations_from_file`).  After the
loop the source unconditionally evaluates `nearest['id']` (line 326) to store
`self.NEAREST_STATION_ID`: with `nearest = None` this raises `TypeError`, and
with a record lacking an `id` field it raises `KeyError`; otherwise the pair
`(nearest, best_dist)` is returned together with the stored station id. -/
noncomputable def find_nearest_station (clat clon : ℝ) (stations : List JVal) :
    Except PyErr (JVal × (Option JVal × Option ℝ)) :=
  match nearestLoop clat clon stations none none with
  | .error e => .error e
  | .ok (nearest, best) =>
    match nearest with
    | none => .error .typeError
    | some st =>
      match pyGetItem st "id" with
      | .error e => .error e
      | .ok nid => .ok (nid, (some st, best))

/-- Spec-side eligibility filter (spec §4.4): the open flag is present and
truthy and both coordinates are present and numeric. -/
def eligible (st : JVal) : Bool :=
  (match pyGetItem st "posteOuvert" with
   | .ok v => pyTruthy v
   | .error _ => false) &&
  exOk (coordQ st "lat") && exOk (coordQ st "lon")

/-- Does the record carry a boolean `posteOuvert` field? -/
def flagBool (st : JVal) : Bool :=
  match pyGetItem st "posteOuvert" with
  | .ok (.bool _) => true
  | _ => false

/-- Does the record carry a `posteOuvert` field at all? -/
def flagPresent (st : JVal) : Bool := exOk (pyGetItem st "posteOuvert")

/-- Spec-side selection over the already-filtered record list: compute the
distance of every record and keep the strictly smallest, first winner on ties. -/
noncomputable def selectOpen (clat clon : ℝ) :
    List JVal → Option JVal → Option ℝ → Option JVal × Option ℝ
  | [], nearest, best => (nearest, best)
  | st :: rest, nearest, best =>
    let d := stDist clat clon st
    match best with
    | none => selectOpen clat clon rest (some st) (some d)
    | some b =>
      if d < b then selectOpen clat clon rest (some st) (some d)
      else selectOpen clat clon rest nearest best

theorem nearestLoop_eq_selectOpen (clat clon : ℝ) (stations : List JVal) :
    ∀ nearest best, stations.all flagPresent = true →
      nearestLoop clat clon stations nearest best =
        .ok (selectOpen clat clon (stations.filter eligible) nearest best) := by
  induction stations with
  | nil => intro nearest best _; rfl
  | cons st rest ih =>
    intro nearest best hall
    rw [List.all_cons, Bool.and_eq_true] at hall
    obtain ⟨hst, hrest⟩ := hall
    unfold flagPresent at hst
    rw [nearestLoop, List.filter_cons]
    cases hflag : pyGetItem st "posteOuvert" with
    | error e => rw [hflag] at hst; simp [exOk] at hst
    | ok v =>
      dsimp only
      by_cases htr : pyTruthy v = false
      · rw [if_pos htr]
        have hel : eligible st = false := by
          simp [eligible, hflag, htr]
        rw [hel, if_neg (by simp)]
        exact ih nearest best hrest
      · rw [if_neg htr]
        rw [Bool.not_eq_false] at htr
        cases hlat : coordQ st "lat" with
        | error e1 =>
          have hel : eligible st = false := by
            simp [eligible, hflag, hlat, exOk]
          rw [hel, if_neg (by simp)]
          cases hlon : coordQ st "lon" <;> exact ih nearest best hrest
        | ok slat =>
          cases hlon : coordQ st "lon" with
          | error e2 =>
            have hel : eligible st = false := by
              simp [eligible, hflag, hlat, hlon, exOk]
            rw [hel, if_neg (by simp)]
            exact ih nearest best hrest
          | ok slon =>
            have hel : eligible st = true := by
              simp [eligible, hflag, hlat, hlon, htr, exOk]
            rw [hel, if_pos (by simp)]
            have hd : stDist clat clon st =
                haversine_km clat clon ((slat : ℚ) : ℝ) ((slon : ℚ) : ℝ) := by
              unfold stDist coordVal
              rw [hlat, hlon]
            rw [selectOpen.eq_def]
            dsimp only
            rw [← hd]
            cases best with
            | none => exact ih _ _ hrest
            | some b =>
              dsimp only
              by_cases hlt : stDist clat clon st < b
              · rw [if_pos hlt, if_pos hlt]
                exact ih _ _ hrest
              · rw [if_neg hlt, if_neg hlt]
                exact ih _ _ hrest

theorem selectOpen_go (clat clon : ℝ) (l : List JVal) :
    ∀ s0 d0, ∃ s d, selectOpen clat clon l (some s0) (some d0) = (some s, some d) ∧
      d ≤ d0 ∧ (∀ y ∈ l, d ≤ stDist clat clon y) ∧
      ((s = s0 ∧ d = d0) ∨
        ∃ pre post, l = pre ++ s :: post ∧ d = stDist clat clon s ∧ d < d0 ∧
          ∀ y ∈ pre, d < stDist clat clon y) := by
  induction l with
  | nil =>
    intro s0 d0
    exact ⟨s0, d0, rfl, le_refl _, by simp, Or.inl ⟨rfl, rfl⟩⟩
  | cons x rest ih =>
    intro s0 d0
    rw [selectOpen.eq_def]
    dsimp only
    by_cases hlt : stDist clat clon x < d0
    · rw [if_pos hlt]
      obtain ⟨s, d, heq, hle, hmin, hcase⟩ := ih x (stDist clat clon x)
      refine ⟨s, d, heq, le_of_lt (lt_of_le_of_lt hle hlt), ?_, ?_⟩
      · intro y hy
        rcases List.mem_cons.mp hy with hy | hy
        · subst hy; exact hle
        · exact hmin y hy
      · rcases hcase with ⟨hs, hd⟩ | ⟨pre, post, hsplit, hds, hdlt, hpre⟩
        · subst hs; subst hd
          exact Or.inr ⟨[], rest, rfl, rfl, hlt, by simp⟩
        · refine Or.inr ⟨x :: pre, post, by rw [hsplit]; rfl, hds, lt_trans hdlt hlt, ?_⟩
          intro y hy
          rcases List.mem_cons.mp hy with hy | hy
          · subst hy; exact hdlt
          · exact hpre y hy
    · rw [if_neg hlt]
      push_neg at hlt
      obtain ⟨s, d, heq, hle, hmin, hcase⟩ := ih s0 d0
      refine ⟨s, d, heq, hle, ?_, ?_⟩
      · intro y hy
        rcases List.mem_cons.mp hy with hy | hy
        · subst hy; exact le_trans hle hlt
        · exact hmin y hy
      · rcases hcase with ⟨hs, hd⟩ | ⟨pre, post, hsplit, hds, hdlt, hpre⟩
        · exact Or.inl ⟨hs, hd⟩
        · refine Or.inr ⟨x :: pre, post, by rw [hsplit]; rfl, hds, hdlt, ?_⟩
          intro y hy
          rcases List.mem_cons.mp hy with hy | hy
          · subst hy; exact lt_of_lt_of_le hdlt hlt
          · exact hpre y hy

theorem selectOpen_min (clat clon : ℝ) (l : List JVal) (hne : l.isEmpty = false) :
    ∃ s d pre post, selectOpen clat clon l none none = (some s, some d) ∧
      l = pre ++ s :: post ∧ d = stDist clat clon s ∧
      (∀ y ∈ l, d ≤ stDist clat clon y) ∧ (∀ y ∈ pre, d < stDist clat clon y) := by
  cases l with
  | nil => simp at hne
  | cons x rest =>
    rw [selectOpen.eq_def]
    dsimp only
    obtain ⟨s, d, heq, hle, hmin, hcase⟩ := selectOpen_go clat clon rest x (stDist clat clon x)
    rcases hcase with ⟨hs, hd⟩ | ⟨pre, post, hsplit, hds, hdlt, hpre⟩
    · subst hs; subst hd
      refine ⟨s, stDist clat clon s, [], rest, heq, rfl, rfl, ?_, by simp⟩
      intro y hy
      rcases List.mem_cons.mp hy with hy | hy
      · subst hy; exact le_refl _
      · exact hmin y hy
    · refine ⟨s, d, x :: pre, post, heq, by rw [hsplit]; rfl, hds, ?_, ?_⟩
      · intro y hy
        rcases List.mem_cons.mp hy with hy | hy
        · subst hy; exact hle
        · exact hmin y hy
      · intro y hy
        rcases List.mem_cons.mp hy with hy | hy
        · subst hy; exact hdlt
        · exact hpre y hy

theorem selectOpen_mem (clat clon : ℝ) (l : List JVal) :
    ∀ nearest best s d, selectOpen clat clon l nearest best = (some s, d) →
      nearest = some s ∨ s ∈ l := by
  induction l with
  | nil =>
    intro nearest best s d heq
    rw [selectOpen] at heq
    exact Or.inl (congrArg Prod.fst heq)
  | cons x rest ih =>
    intro nearest best s d heq
    rw [selectOpen.eq_def] at heq
    dsimp only at heq
    cases best with
    | none =>
      rcases ih _ _ _ _ heq with h | h
      · exact Or.inr (by rw [← Option.some_inj.mp h]; exact List.mem_cons_self x rest)
      · exact Or.inr (List.mem_cons_of_mem x h)
    | some b =>
      dsimp only at heq
      by_cases hlt : stDist clat clon x < b
      · rw [if_pos hlt] at heq
        rcases ih _ _ _ _ heq with h | h
        · exact Or.inr (by rw [← Option.some_inj.mp h]; exact List.mem_cons_self x rest)
        · exact Or.inr (List.mem_cons_of_mem x h)
      · rw [if_neg hlt] at heq
        rcases ih _ _ _ _ heq with h | h
        · exact Or.inl h
        · exact Or.inr (List.mem_cons_of_mem x h)

/-- Outcome of one `requests.get` against the station-directory provider, as
seen by Meteo.call_api_list: a parsed JSON body, an `HTTPError` from
`raise_for_status`, or any other failure (transport error, or the
`ValueError` raised on a non-JSON body). -/
inductive NetResult where
  | ok (data : JVal)
  | httpError
  | otherError

/-- A cached catalog file slot: absent, present but not valid JSON, or
present with a parsed JSON value. -/
def CacheSlot : Type := Option (Except Unit JVal)

/-- Meteo._should_write_json (src/meteo.py lines 137-145): rewrite when the
file is absent, unparsable, or does not hold a non-empty JSON list. -/
def should_write_json (slot : CacheSlot) : Bool :=
  match slot with
  | none => true
  | some (.error _) => true
  | some (.ok v) =>
    match v with
    | .arr l => l.isEmpty
    | _ => true

/-- Result of one invocation of the station-catalog accessor. -/
structure AccessorOutcome where
  networkCalled : Bool
  exitCode : Option ℕ
  newCache : CacheSlot

/-- Meteo.write_stations_by_departement (src/meteo.py lines 148-167): it
always invokes `call_api_list` (a network fetch) first — `sys.exit(3)` on
`HTTPError`, `sys.exit(4)` on any other failure — and only afterwards decides
whether to overwrite the cached catalog file (`_should_write_json`, or either
force flag). -/
def write_stations_by_departement (slot : CacheSlot) (apiForce force : Bool)
    (net : NetResult) : AccessorOutcome :=
  match net with
  | .httpError => ⟨true, some 3, slot⟩
  | .otherError => ⟨true, some 4, slot⟩
  | .ok data =>
    if should_write_json slot || apiForce || force then ⟨true, none, some (.ok data)⟩
    else ⟨true, none, slot⟩

/-- An HTTP response from the climate-data provider: status code, the result
of `resp.json()` (`Except.error` when the body is not JSON), and the raw
`resp.content` bytes. -/
structure HttpResponse where
  status : ℕ
  body : Except Unit JVal
  content : String

/-- The extraction
`resp.json().get('elaboreProduitAvecDemandeResponse', {}).get('return', None)`
of Meteo.call_api_command (src/meteo.py line 94): a missing outer or inner
field yields `None` (`JVal.null`). -/
def extract_order_id (body : JVal) : Except PyErr JVal :=
  match pyDictGet body "elaboreProduitAvecDemandeResponse" (.obj []) with
  | .error e => .error e
  | .ok inner => pyDictGet inner "return" .null

/-- Meteo.call_api_command (src/meteo.py lines 75-98): both period dates are
converted with `to_iso_midnight_z` while building the request parameters, so a
malformed date raises `ValueError` before the request is issued; then the
request is sent (`HTTPError` on a 4xx/5xx status, `ValueError` on a non-JSON
body) and the order identifier is extracted.  The boolean records whether a
network request was issued. -/
def call_api_command (dateDeb dateFin : String) (net : String → String → HttpResponse) :
    Bool × Except PyErr JVal :=
  match to_iso_midnight_z dateDeb with
  | .error e => (false, .error e)
  | .ok isoDeb =>
    match to_iso_midnight_z dateFin with
    | .error e => (false, .error e)
    | .ok isoFin =>
      let resp := net isoDeb isoFin
      if 400 ≤ resp.status then (true, .error .httpError)
      else
        match resp.body with
        | .error _ => (true, .error .valueError)
        | .ok j => (true, extract_order_id j)

/-- Is the value Python `None`? -/
def isNull : JVal → Bool
  | .null => true
  | _ => false

/-- Result of one invocation of the file-fetch step: the query parameters the
request was issued with (`none` when no request was made) and the outcome. -/
structure DownloadOutcome where
  requested : Option (List (String × JVal))
  result : Except PyErr String

/-- Meteo.call_api_download_file (src/meteo.py lines 101-122): builds
`params = {"id-cmde": API_COMMAND_ID}` and issues the request unconditionally
— the `requests` library drops parameters whose value is `None`, so a missing
order identifier is sent as no parameter at all.  `raise_for_status` raises
`HTTPError` on a 4xx/5xx status (uncaught by any caller); otherwise the raw
bytes are written to the per-city file and returned here. -/
def call_api_download_file (commandId : JVal) (net : List (String × JVal) → HttpResponse) :
    DownloadOutcome :=
  let sent := ([("id-cmde", commandId)]).filter (fun p => !isNull p.2)
  let resp := net sent
  if 400 ≤ resp.status then ⟨some sent, .error .httpError⟩
  else ⟨some sent, .ok resp.content⟩

/-- A geopy `Location` as used by the source: `latitude`, `longitude`, the
`display_name` raw field and (for administrative areas) the `boundingbox` raw
field, already split as south/north/west/east. -/
structure GeoLocation where
  latitude : ℚ
  longitude : ℚ
  display_name : Option String
  boundingbox : Option (ℚ × ℚ × ℚ × ℚ)

/-- The three shapes of outbound geocoding request the source issues: the
structured dict query of Meteo.geocode_city_with_county, the free-text
queries of the archive scripts, and the viewbox-bounded retry. -/
inductive GeoQuery where
  | structured (city county country : String)
  | text (q : String)
  | boundedText (q : String) (viewbox : List (ℚ × ℚ))

/-- A geocoding oracle: either raises (swallowed by the callers) or returns
an optional location. -/
def Geocoder : Type := GeoQuery → Except Unit (Option GeoLocation)

/-- Meteo.geocode_city_with_county (src/meteo.py lines 210-278): the only
live strategy is the single structured direct query; a raised exception or a
falsy result falls through, and — the bounding-box fallback of lines 247-275
being commented out — the function then returns `None`. -/
def geocode_city_with_county (city county country : String) (geocode : Geocoder) :
    Option (String × ℚ × ℚ × String) :=
  match geocode (.structured city county country) with
  | .error _ => none
  | .ok none => none
  | .ok (some loc) => some (city, loc.latitude, loc.longitude, loc.display_name.getD "")

/-- The five department query formulations of _try_geocode_department_bbox
(src/_archives/02_input_ville.py lines 41-47). -/
def deptQueries (department country : String) : List String :=
  ["Département " ++ department ++ ", " ++ country,
   "Department " ++ department ++ ", " ++ country,
   "Dept " ++ department ++ ", " ++ country,
   department ++ " " ++ country ++ " département",
   department ++ ", " ++ country ++ " département"]

/-- _try_geocode_department_bbox (src/_archives/02_input_ville.py lines
29-58): try each formulation, swallowing exceptions; on the first result that
carries a `boundingbox` `[south, north, west, east]`, return it reordered as
(west, south, east, north). -/
def try_geocode_department_bbox (department country : String) (geocode : Geocoder) :
    Option (ℚ × ℚ × ℚ × ℚ) :=
  go (deptQueries department country)
where
  go : List String → Option (ℚ × ℚ × ℚ × ℚ)
    | [] => none
    | q :: rest =>
      match geocode (.text q) with
      | .error _ => go rest
      | .ok none => go rest
      | .ok (some loc) =>
        match loc.boundingbox with
        | some (south, north, west, east) => some (west, south, east, north)
        | none => go rest

/-- The four direct query formulations of geocode_city_with_department_code
(src/_archives/02_input_ville.py lines 77-82). -/
def directQueries (city department country : String) : List String :=
  [city ++ ", Département " ++ department ++ ", " ++ country,
   city ++ ", Dept " ++ department ++ ", " ++ country,
   city ++ ", Department " ++ department ++ ", " ++ country,
   city ++ ", " ++ department ++ ", " ++ country]

/-- The direct-query loop of geocode_city_with_department_code
(src/_archives/02_input_ville.py lines 83-89). -/
def directLoop (geocode : Geocoder) : List String → Option (ℚ × ℚ × String)
  | [] => none
  | q :: rest =>
    match geocode (.text q) with
    | .error _ => directLoop geocode rest
    | .ok none => directLoop geocode rest
    | .ok (some loc) => some (loc.latitude, loc.longitude, loc.display_name.getD "")

/-- geocode_city_with_department_code (src/_archives/02_input_ville.py lines
61-113): try the four direct formulations; if none succeeds, geocode the
department itself for its bounding box and retry the bare city name bounded
(`bounded=True`) to the viewbox `[(west, south), (east, north)]`; return the
first hit, else `None`. -/
def geocode_city_with_department_code (city department country : String)
    (geocode : Geocoder) : Option (ℚ × ℚ × String) :=
  match directLoop geocode (directQueries city department country) with
  | some r => some r
  | none =>
    match try_geocode_department_bbox department country geocode with
    | none => none
    | some (west, south, east, north) =>
      match geocode (.boundedText city [(west, south), (east, north)]) with
      | .error _ => none
      | .ok none => none
      | .ok (some loc) => some (loc.latitude, loc.longitude, loc.display_name.getD "")

/-- How a run of the CLI driver stops early: `sys.exit(code)` or an uncaught
Python exception. -/
inductive Halt where
  | exited (code : ℕ)
  | uncaught (e : PyErr)
  deriving Repr, DecidableEq

/-- The value held by `args.date_fin` after the default/future handling of
src/meteo_climatologie.py lines 51-57: either still the `date` object produced
by the argparse type `parse_date`, or a string. -/
inductive StrOrDate where
  | s (v : String)
  | d (v : PyDate)
  deriving Repr, DecidableEq

/-- One iteration of the validation loop of src/meteo_climatologie.py lines
60-65: `datetime.strptime(d, "%Y-%m-%d")` succeeds, raises `ValueError`
(caught, exit 4), or — when `d` is still a `date` object rather than a
string — raises `TypeError` (uncaught). -/
def strptimeCheck : StrOrDate → Except PyErr Unit
  | .s v => if validYmd v then .ok () else .error .valueError
  | .d _ => .error .typeError

/-- The `--date-fin` default/future handling of src/meteo_climatologie.py
lines 51-57: an omitted value becomes `str(today)`; a supplied value strictly
after today is replaced by `str(today)`; otherwise the parsed `date` object is
kept as-is. -/
def mainDateFin (dateFinArg : Option PyDate) (today : PyDate) : StrOrDate :=
  match dateFinArg with
  | none => .s (dateToStr today)
  | some d => if dateLt today d then .s (dateToStr today) else .d d

/-- The date validation of src/meteo_climatologie.py lines 51-70: the
default/future handling, then the `strptime` loop over `--date-deb` and
`--date-fin` (`ValueError` → exit 4, `TypeError` uncaught), then the
`args.date_deb > args.date_fin` string comparison (exit 5). -/
def mainDates (dateDeb : String) (dateFinArg : Option PyDate) (today : PyDate) :
    Except Halt (String × String) :=
  let dfin := mainDateFin dateFinArg today
  match strptimeCheck (.s dateDeb) with
  | .error .valueError => .error (.exited 4)
  | .error e => .error (.uncaught e)
  | .ok _ =>
    match strptimeCheck dfin with
    | .error .valueError => .error (.exited 4)
    | .error e => .error (.uncaught e)
    | .ok _ =>
      match dfin with
      | .s v => if v < dateDeb then .error (.exited 5) else .ok (dateDeb, v)
      | .d _ => .error (.uncaught .typeError)

/-- Python iteration over a JSON value (`for st in stations`): lists yield
their elements, dicts their keys, strings their characters; other values are
not iterable (`TypeError`). -/
def pyIter : JVal → Except PyErr (List JVal)
  | .arr l => .ok l
  | .obj l => .ok (l.map (fun p => .str p.1))
  | .str s => .ok (s.toList.map (fun c => .str (String.mk [c])))
  | _ => .error .typeError

/-- Reading the catalog file back in find_nearest_station
(`load_stations_from_file`, src/meteo.py lines 330-332) followed by the loop
iteration: a missing file raises `FileNotFoundError`, a corrupt one
`JSONDecodeError`, both uncaught. -/
def stationsOfCache (slot : CacheSlot) : Except PyErr (List JVal) :=
  match slot with
  | none => .error .fileNotFoundError
  | some (.error _) => .error .jsonDecodeError
  | some (.ok v) => pyIter v

/-- One input record of `inputs.json`, as read by src/meteo_climatologie.py
lines 110-117 (the optional country default is `'France'`; the optional
per-city force flag defaults to false; language and parameter do not influence
the modelled behaviour). -/
structure CityInput where
  name : String
  county : String
  country : String
  dept : String
  force : Bool

/-- The external collaborators of one driver run. -/
structure Env where
  listNet : String → NetResult
  geoNet : Geocoder
  cmdNet : JVal → String → String → HttpResponse
  dlNet : List (String × JVal) → HttpResponse
  apiForce : Bool

/-- The on-disk `departements/` cache, keyed by department code. -/
def CacheMap : Type := String → CacheSlot

/-- One iteration of the per-city loop of src/meteo_climatologie.py lines
110-162: refresh the catalog (exit 3/4 on fetch failure), geocode (print and
`sys.exit(1)` on `None`), select the nearest station (uncaught exception on
failure), submit the order (send_command_station: exit 3 on `HTTPError`,
exit 4 on `ValueError`/request failure, anything else — such as the
`AttributeError` of `.get` on a non-dict body — uncaught), download the file
(uncaught `HTTPError`), write the spreadsheet (out of scope, modelled as
succeeding).
Returns the updated cache when the record completes. -/
noncomputable def processCity (env : Env) (cache : CacheMap) (dateDeb dateFin : String)
    (c : CityInput) : Except Halt CacheMap :=
  let acc := write_stations_by_departement (cache c.dept) env.apiForce c.force
    (env.listNet c.dept)
  match acc.exitCode with
  | some n => .error (.exited n)
  | none =>
    let cache2 : CacheMap := fun k => if k = c.dept then acc.newCache else cache k
    match geocode_city_with_county c.name c.county c.country env.geoNet with
    | none => .error (.exited 1)
    | some (_, lat, lon, _) =>
      match stationsOfCache (cache2 c.dept) with
      | .error e => .error (.uncaught e)
      | .ok stations =>
        match find_nearest_station ((lat : ℚ) : ℝ) ((lon : ℚ) : ℝ) stations with
        | .error e => .error (.uncaught e)
        | .ok (nid, _) =>
          match (call_api_command dateDeb dateFin (env.cmdNet nid)).2 with
          | .error .httpError => .error (.exited 3)
          | .error .valueError => .error (.exited 4)
          | .error e => .error (.uncaught e)
          | .ok cmdId =>
            match (call_api_download_file cmdId env.dlNet).result with
            | .error e => .error (.uncaught e)
            | .ok _ => .ok cache2

/-- The batch loop of src/meteo_climatologie.py lines 110-162: process the
city records in order, stopping at the first exit or uncaught exception.
Returns the names of the completed records and how the run stopped
(`none` = ran to completion). -/
noncomputable def runBatch (env : Env) (dateDeb dateFin : String) :
    List CityInput → CacheMap → List String → List String × Option Halt
  | [], _, done => (done.reverse, none)
  | c :: rest, cache, done =>
    match processCity env cache dateDeb dateFin c with
    | .error h => (done.reverse, some h)
    | .ok cache2 => runBatch env dateDeb dateFin rest cache2 (c.name :: done)

/-- main (src/meteo_climatologie.py lines 21-162) after argument parsing:
date validation first, then the batch loop over the city records. -/
noncomputable def mainRun (dateDeb : String) (dateFinArg : Option PyDate) (today : PyDate)
    (env : Env) (cache : CacheMap) (cities : List CityInput) : List String × Option Halt :=
  match mainDates dateDeb dateFinArg today with
  | .error h => ([], some h)
  | .ok (dd, df) => runBatch env dd df cities cache []

/-- A closed station record (posteOuvert false), shaped like the catalog
entries of src/_archives/03_nearest_station.py lines 22-31. -/
def closedStation : JVal :=
  .obj [("id", .str "49007003"), ("nom", .str "ANGERS ECOLE NORMALE"),
    ("posteOuvert", .bool false), ("lat", .num 47), ("lon", .num 0)]

/-- An open station record with integer test coordinates. -/
def openSt1 : JVal :=
  .obj [("id", .str "49007004"), ("nom", .str "ANGERS JARDIN DES PLANTES"),
    ("posteOuvert", .bool true), ("lat", .num 47), ("lon", .num 0)]

/-- A second open station record at the same coordinates. -/
def openSt2 : JVal :=
  .obj [("id", .str "49007005"), ("nom", .str "ANGERS BAUMETTE"),
    ("posteOuvert", .bool true), ("lat", .num 47), ("lon", .num 0)]

/-- A provider that always answers 200 with an empty JSON object body. -/
def net200 : List (String × JVal) → HttpResponse := fun _ => ⟨200, .ok (.obj []), "payload"⟩

/-- A city record used by concrete driver runs. -/
def cityA : CityInput := ⟨"VilleA", "Maine-et-Loire", "France", "49", false⟩

/-- A second city record used by concrete driver runs. -/
def cityB : CityInput := ⟨"VilleB", "Maine-et-Loire", "France", "49", false⟩

/-- A collaborator bundle whose geocoder finds nothing and whose providers
always succeed. -/
def env0 : Env :=
  ⟨fun _ => .ok (.arr [openSt1]), fun _ => .ok none,
    fun _ _ _ => ⟨200, .ok (.obj []), ""⟩, fun _ => ⟨200, .ok (.obj []), ""⟩, false⟩

/-- C1: the claim says the nearest-station selector returns the absent result
(None, None) on a catalog with no eligible record; the live code
(src/meteo.py line 326) instead evaluates `nearest['id']` with
`nearest = None` and raises `TypeError`, contradicting the function's own
docstring ("Si aucune station valide n'est trouvée, (None, None)").  This
theorem evaluates the embedded code on the empty catalog and on an all-closed
catalog: both runs raise instead of returning the absent result. -/
theorem c1_selector_raises_without_eligible_record :
    find_nearest_station 0 0 [] = .error .typeError ∧
    find_nearest_station 0 0 [closedStation] = .error .typeError :=
  ⟨rfl, rfl⟩

/-- C2: the claim says a fresh cached catalog is returned with no network
call; the code (src/meteo.py lines 148-167) calls `call_api_list` — a network
fetch — unconditionally before looking at the cache, and the freshness check
only suppresses the file write.  For every existing non-empty parsed-list
cache slot with both force flags false and any provider behaviour, the
accessor still makes the network call (it merely leaves the cache slot
unchanged). -/
theorem c2_cache_hit_still_fetches (st : JVal) (rest : List JVal) (net : NetResult) :
    (write_stations_by_departement (some (.ok (.arr (st :: rest)))) false false
      net).networkCalled = true ∧
    (write_stations_by_departement (some (.ok (.arr (st :: rest)))) false false
      net).newCache = some (.ok (.arr (st :: rest))) := by
  cases net with
  | ok data =>
    constructor
    · rfl
    · simp [write_stations_by_departement, should_write_json]
  | httpError => exact ⟨rfl, rfl⟩
  | otherError => exact ⟨rfl, rfl⟩

/-- C9: the distance engine is zero on equal points, symmetric in its two
points, and non-negative everywhere. -/
theorem c9_distance_engine_algebra :
    (∀ lat lon : ℝ, haversine_km lat lon lat lon = 0) ∧
    (∀ lat1 lon1 lat2 lon2 : ℝ,
      haversine_km lat1 lon1 lat2 lon2 = haversine_km lat2 lon2 lat1 lon1) ∧
    (∀ lat1 lon1 lat2 lon2 : ℝ, 0 ≤ haversine_km lat1 lon1 lat2 lon2) :=
  ⟨haversine_km_self, haversine_km_symm, haversine_km_nonneg⟩

/-- C6: date conversion maps "2025-12-21" to exactly "2025-12-21T00:00:00Z",
rejects "2025-13-01" and "21-12-2025" with a `ValueError`, and — since both
period dates are converted while the request parameters are being built —
any malformed date makes the order submission fail before a network request
is issued. -/
theorem c6_date_conversion_fails_fast :
    to_iso_midnight_z "2025-12-21" = .ok "2025-12-21T00:00:00Z" ∧
    to_iso_midnight_z "2025-13-01" = .error .valueError ∧
    to_iso_midnight_z "21-12-2025" = .error .valueError ∧
    (∀ (dateDeb dateFin : String) (net : String → String → HttpResponse),
      exOk (to_iso_midnight_z dateDeb) = false ∨ exOk (to_iso_midnight_z dateFin) = false →
      (call_api_command dateDeb dateFin net).1 = false ∧
      exOk (call_api_command dateDeb dateFin net).2 = false) := by
  refine ⟨rfl, rfl, rfl, ?_⟩
  intro dateDeb dateFin net hbad
  unfold call_api_command
  cases hdeb : to_iso_midnight_z dateDeb with
  | error e => exact ⟨rfl, rfl⟩
  | ok isoDeb =>
    cases hfin : to_iso_midnight_z dateFin with
    | error e => exact ⟨rfl, rfl⟩
    | ok isoFin =>
      rcases hbad with h | h
      · rw [hdeb] at h; simp [exOk] at h
      · rw [hfin] at h; simp [exOk] at h

/-- Witness for C6 at the concrete malformed begin date "2025-13-01". -/
theorem c6_witness :
    (call_api_command "2025-13-01" "2025-12-21" (fun _ _ => ⟨200, .ok (.obj []), ""⟩)).1
      = false ∧
    exOk (call_api_command "2025-13-01" "2025-12-21"
      (fun _ _ => ⟨200, .ok (.obj []), ""⟩)).2 = false :=
  c6_date_conversion_fails_fast.2.2.2 "2025-13-01" "2025-12-21"
    (fun _ _ => ⟨200, .ok (.obj []), ""⟩) (Or.inl (by decide))

/-- C5, counterexample: with an order response whose nested identifier field
is absent, the orchestrator records None — but the downstream file fetch does
not fail: against a provider that answers 200 it issues the request (with the
`id-cmde` parameter dropped entirely, since `requests` omits None-valued
parameters) and succeeds, returning the payload.  The claim's "the fetch must
then fail, not silently proceed" is false on the code. -/
theorem c5_counterexample :
    (call_api_command "2025-12-21" "2025-12-22"
      (fun _ _ => ⟨200, .ok (.obj [("other", .null)]), ""⟩)).2 = .ok .null ∧
    (call_api_download_file .null net200).requested = some [] ∧
    (call_api_download_file .null net200).result = .ok "payload" :=
  ⟨rfl, rfl, rfl⟩

/-- C5, amended: absence of the nested order-identifier field is recorded as
None; the downstream fetch then issues the request anyway with the identifier
parameter omitted, and it fails only when the provider answers the
identifier-less request with an HTTP error status — the client itself never
fails fast. -/
theorem c5_absent_id_recorded_fetch_proceeds :
    (∀ l, lookupStr l "elaboreProduitAvecDemandeResponse" = none →
      extract_order_id (.obj l) = .ok .null) ∧
    (∀ net : List (String × JVal) → HttpResponse,
      (call_api_download_file .null net).requested = some [] ∧
      ((call_api_download_file .null net).result = .error .httpError ↔
        400 ≤ (net []).status)) := by
  constructor
  · intro l hmiss
    simp only [extract_order_id, pyDictGet, hmiss]
    rfl
  · intro net
    have hsent : List.filter (fun p => !isNull p.2) [(("id-cmde" : String), JVal.null)] =
        ([] : List (String × JVal)) := rfl
    simp only [call_api_download_file, hsent]
    constructor
    · by_cases h : 400 ≤ (net []).status
      · rw [if_pos h]
      · rw [if_neg h]
    · constructor
      · intro h
        by_cases hs : 400 ≤ (net []).status
        · exact hs
        · rw [if_neg hs] at h
          exact absurd h (by simp)
      · intro hs
        rw [if_pos hs]

/-- Witness for C5 at a concrete identifier-less response and a 200
provider. -/
theorem c5_witness :
    extract_order_id (.obj [("other", JVal.null)]) = .ok .null ∧
    (call_api_download_file .null net200).requested = some [] :=
  ⟨c5_absent_id_recorded_fetch_proceeds.1 [("other", .null)] rfl,
    (c5_absent_id_recorded_fetch_proceeds.2 net200).1⟩

/-- A department location carrying a bounding box [south, north, west, east]. -/
def deptLoc : GeoLocation := ⟨45, 2, some "Corrèze, France", some (44, 46, 1, 3)⟩

/-- A city location as returned by the bounded retry. -/
def cityLoc : GeoLocation := ⟨45, 2, some "Beaulieu-sur-Dordogne, Corrèze, France", none⟩

/-- A geocoding provider on which every direct query fails (empty result),
the department lookup succeeds with a bounding box, and the bare-name bounded
retry succeeds. -/
def c3Geo : Geocoder := fun q =>
  match q with
  | .structured _ _ _ => .ok none
  | .text s => if s = "Département 19, France" then .ok (some deptLoc) else .ok none
  | .boundedText s _ =>
    if s = "Beaulieu-sur-Dordogne" then .ok (some cityLoc) else .ok none

/-- C3: the claim (and the docstring of Meteo.geocode_city_with_county,
src/meteo.py lines 217-222, which still advertises the bounding-box fallback)
says that when every direct query fails but the region bounding-box lookup
and the bounded retry succeed, the resolver returns the bounded result.  In
the live code the whole fallback (lines 247-275) is commented out, so the
resolver returns the absent result — while the archived implementation
(src/_archives/02_input_ville.py), run on the same provider behaviour,
returns the bounded coordinates. -/
theorem c3_bbox_fallback_disabled :
    geocode_city_with_county "Beaulieu-sur-Dordogne" "Corrèze" "France" c3Geo = none ∧
    geocode_city_with_department_code "Beaulieu-sur-Dordogne" "19" "France" c3Geo =
      some (45, 2, "Beaulieu-sur-Dordogne, Corrèze, France") :=
  ⟨rfl, rfl⟩

theorem all_flagBool_present {stations : List JVal} (hb : stations.all flagBool = true) :
    stations.all flagPresent = true := by
  rw [List.all_eq_true] at hb ⊢
  intro st hst
  have h := hb st hst
  simp only [flagBool] at h
  simp only [flagPresent]
  cases hfb : pyGetItem st "posteOuvert" with
  | error e => rw [hfb] at h; simp at h
  | ok v => simp [exOk]

theorem eligible_flag_true {st : JVal} (hb : flagBool st = true) (he : eligible st = true) :
    pyGetItem st "posteOuvert" = .ok (.bool true) := by
  simp only [flagBool] at hb
  simp only [eligible] at he
  cases hfb : pyGetItem st "posteOuvert" with
  | error e => rw [hfb] at hb; simp at hb
  | ok v =>
    rw [hfb] at hb he
    cases v with
    | bool b =>
      simp only [pyTruthy, Bool.and_eq_true] at he
      rw [he.1.1]
    | null => simp at hb
    | num q => simp at hb
    | str s => simp at hb
    | arr l => simp at hb
    | obj l => simp at hb

/-- C7: on every catalog of well-formed records (each carrying a boolean
`posteOuvert` field, per the data model), the selector loop computes exactly
the first-minimum selection over the records whose open flag is truthy and
whose latitude and longitude convert to numbers — every other record is
silently skipped, not an error — and whenever the selector returns a station
it is one of those filtered records with its open flag literally true, so a
closed station is never selected. -/
theorem c7_filter_and_never_closed (clat clon : ℝ) (stations : List JVal)
    (hb : stations.all flagBool = true) :
    nearestLoop clat clon stations none none =
      .ok (selectOpen clat clon (stations.filter eligible) none none) ∧
    (∀ out, find_nearest_station clat clon stations = .ok out →
      ∃ st, out.2.1 = some st ∧ st ∈ stations.filter eligible ∧
        pyGetItem st "posteOuvert" = .ok (.bool true)) := by
  have hbp := all_flagBool_present hb
  have hre := nearestLoop_eq_selectOpen clat clon stations none none hbp
  refine ⟨hre, ?_⟩
  intro out hout
  unfold find_nearest_station at hout
  rw [hre] at hout
  cases hsel : selectOpen clat clon (stations.filter eligible) none none with
  | mk n b =>
    rw [hsel] at hout
    dsimp only at hout
    cases n with
    | none => exact absurd hout (by simp)
    | some st =>
      dsimp only at hout
      cases hidv : pyGetItem st "id" with
      | error e => rw [hidv] at hout; exact absurd hout (by simp)
      | ok nid =>
        rw [hidv] at hout
        have hmem : st ∈ stations.filter eligible := by
          rcases selectOpen_mem clat clon (stations.filter eligible) none none st b hsel
            with h | h
          · exact absurd h (by simp)
          · exact h
        have hel : eligible st = true := (List.mem_filter.mp hmem).2
        have hfb : flagBool st = true := by
          have := List.all_eq_true.mp hb st (List.mem_of_mem_filter hmem)
          exact this
        refine ⟨st, ?_, hmem, eligible_flag_true hfb hel⟩
        have : out = (nid, (some st, b)) := by
          cases hout
          rfl
        rw [this]

/-- Witness for C7 on a concrete two-record catalog holding one closed and
one open station. -/
theorem c7_witness :
    ([closedStation, openSt1].all flagBool = true) ∧
    (nearestLoop 0 0 [closedStation, openSt1] none none =
      .ok (selectOpen 0 0 ([closedStation, openSt1].filter eligible) none none) ∧
    (∀ out, find_nearest_station 0 0 [closedStation, openSt1] = .ok out →
      ∃ st, out.2.1 = some st ∧ st ∈ [closedStation, openSt1].filter eligible ∧
        pyGetItem st "posteOuvert" = .ok (.bool true))) :=
  ⟨by decide, c7_filter_and_never_closed 0 0 [closedStation, openSt1] (by decide)⟩

/-- C8: on every catalog of well-formed records (open flag present, id
present) whose filtered set is non-empty, the selector returns a filtered
record achieving the minimum great-circle distance, and on ties the first
such record in catalog iteration order (every filtered record strictly before
the winner is strictly farther). -/
theorem c8_returns_first_minimum (clat clon : ℝ) (stations : List JVal)
    (hflag : stations.all flagPresent = true)
    (hid : stations.all (fun st => exOk (pyGetItem st "id")) = true)
    (hne : (stations.filter eligible).isEmpty = false) :
    ∃ st d nid pre post,
      find_nearest_station clat clon stations = .ok (nid, (some st, some d)) ∧
      stations.filter eligible = pre ++ st :: post ∧
      d = stDist clat clon st ∧
      (∀ y ∈ stations.filter eligible, d ≤ stDist clat clon y) ∧
      (∀ y ∈ pre, d < stDist clat clon y) := by
  obtain ⟨s, d, pre, post, heq, hsplit, hds, hmin, hpre⟩ :=
    selectOpen_min clat clon (stations.filter eligible) hne
  have hre := nearestLoop_eq_selectOpen clat clon stations none none hflag
  have hsel : s ∈ stations.filter eligible := by
    rw [hsplit]
    exact List.mem_append_right _ (List.mem_cons_self _ _)
  have hsst : s ∈ stations := List.mem_of_mem_filter hsel
  have hsid : exOk (pyGetItem s "id") = true := by
    have := List.all_eq_true.mp hid s hsst
    exact this
  cases hidv : pyGetItem s "id" with
  | error e => rw [hidv] at hsid; simp [exOk] at hsid
  | ok nid =>
    refine ⟨s, d, nid, pre, post, ?_, hsplit, hds, hmin, hpre⟩
    unfold find_nearest_station
    rw [hre, heq]
    dsimp only
    rw [hidv]

/-- Witness for C8 on a concrete two-record catalog of open stations at
identical coordinates. -/
theorem c8_witness :
    ([openSt1, openSt2].all flagPresent = true) ∧
    ([openSt1, openSt2].all (fun st => exOk (pyGetItem st "id")) = true) ∧
    (([openSt1, openSt2].filter eligible).isEmpty = false) ∧
    (∃ st d nid pre post,
      find_nearest_station 0 0 [openSt1, openSt2] = .ok (nid, (some st, some d)) ∧
      [openSt1, openSt2].filter eligible = pre ++ st :: post ∧
      d = stDist 0 0 st ∧
      (∀ y ∈ [openSt1, openSt2].filter eligible, d ≤ stDist 0 0 y) ∧
      (∀ y ∈ pre, d < stDist 0 0 y)) :=
  ⟨by decide, by decide, by decide,
    c8_returns_first_minimum 0 0 [openSt1, openSt2] (by decide) (by decide) (by decide)⟩

/-- C4, counterexample: a batch of two records where the first city cannot be
geocoded.  The claim says the driver records the absent result and continues
with the next record; the code (src/meteo_climatologie.py lines 132-134)
prints the message and calls `sys.exit(1)`, so the run stops with exit
status 1, no record completes, and the second record is never processed. -/
theorem c4_counterexample :
    geocode_city_with_county "VilleA" "Maine-et-Loire" "France" env0.geoNet = none ∧
    runBatch env0 "2025-01-01" "2025-02-01" [cityA, cityB] (fun _ => none) [] =
      ([], some (.exited 1)) :=
  ⟨rfl, rfl⟩

/-- C4, amended: a geocoding not-found is indeed represented as the explicit
absent result None inside the resolver, but the pipeline driver does not
continue: whenever the catalog-refresh step of a record succeeds and its
geocoding returns the absent result, the whole batch stops at that record
with exit status 1 (records after it are not processed; the completed list is
unchanged). -/
theorem c4_not_found_aborts_batch (env : Env) (cache : CacheMap) (dateDeb dateFin : String)
    (c : CityInput) (rest : List CityInput) (done : List String)
    (hacc : (write_stations_by_departement (cache c.dept) env.apiForce c.force
      (env.listNet c.dept)).exitCode = none)
    (hgeo : geocode_city_with_county c.name c.county c.country env.geoNet = none) :
    runBatch env dateDeb dateFin (c :: rest) cache done = (done.reverse, some (.exited 1)) := by
  rw [runBatch]
  have hpc : processCity env cache dateDeb dateFin c = .error (.exited 1) := by
    unfold processCity
    dsimp only
    rw [hacc]
    dsimp only
    rw [hgeo]
  rw [hpc]

/-- Witness for C4 at the concrete environment and batch of the
counterexample, started with a non-empty completed list. -/
theorem c4_witness :
    runBatch env0 "2025-01-01" "2025-02-01" [cityA, cityB] (fun _ => none) ["X"] =
      (["X"], some (.exited 1)) :=
  c4_not_found_aborts_batch env0 (fun _ => none) "2025-01-01" "2025-02-01" cityA [cityB]
    ["X"] rfl rfl

/-- C10: the driver's `--date-fin` handling (src/meteo_climatologie.py lines
51-65) silently replaces a value strictly after today by today's date (the
same state as an omitted value, a string); but an explicitly supplied
`--date-fin` on or before today is kept as a `date` object, the validation
loop then applies `datetime.strptime` to that object instead of a string, and
the run dies with an uncaught `TypeError` before any location record is
processed. -/
theorem c10_date_fin_type_error (today d : PyDate) (dateDeb : String) (env : Env)
    (cache : CacheMap) (cities : List CityInput) :
    (dateLt today d = true → mainDateFin (some d) today = mainDateFin none today) ∧
    (dateLt today d = false →
      mainDateFin (some d) today = .d d ∧ strptimeCheck (.d d) = .error .typeError) ∧
    (dateLt today d = false → validYmd dateDeb = true →
      mainRun dateDeb (some d) today env cache cities = ([], some (.uncaught .typeError))) := by
  refine ⟨?_, ?_, ?_⟩
  · intro h
    simp [mainDateFin, h]
  · intro h
    exact ⟨by simp [mainDateFin, h], rfl⟩
  · intro h hdeb
    have hfin : mainDateFin (some d) today = .d d := by simp [mainDateFin, h]
    have hdates : mainDates dateDeb (some d) today = .error (.uncaught .typeError) := by
      unfold mainDates
      rw [hfin]
      simp only [strptimeCheck, hdeb, if_pos]
    unfold mainRun
    rw [hdates]

/-- Witness for C10 at a concrete supplied end date on/before today. -/
theorem c10_witness :
    mainRun "2025-01-01" (some ⟨2026, 10, 11⟩) ⟨2026, 10, 12⟩ env0 (fun _ => none) [cityA] =
      ([], some (.uncaught .typeError)) :=
  (c10_date_fin_type_error ⟨2026, 10, 12⟩ ⟨2026, 10, 11⟩ "2025-01-01" env0 (fun _ => none)
    [cityA]).2.2 (by decide) (by decide)

end MeteoClim
